import Mathlib

/-!
Shallow embedding of `lockhinter` (src/src/main.rs).

The program supervises a screen-locker child process and maintains the
session's `LockedHint` boolean via D-Bus calls to logind.  We embed the
worker thread of `main` as a pure function of the parsed command-line
flags (`Args`) and an oracle (`World`) recording the outcome of every
external interaction: the bus-watcher event delivered over the mpsc
channel, the `GetSessionByPID` call, the `GetAll` properties call, the
`spawn` of the child, the `SetLockedHint` calls and the `wait` on the
child.  The run result records the process exit status, the lines
printed to standard output, and the ordered sequence of externally
visible calls (spawn and hint-setter invocations).
-/

namespace Lockhinter

/-- Model of a GLib `Variant` value, restricted to the shapes the program
inspects: strings (the session `State`), booleans (`LockedHint`), and a
catch-all for any other variant type, on which `try_get` fails with a
type mismatch. -/
inductive Variant where
  | vString (s : String)
  | vBool (b : Bool)
  | vOther
deriving DecidableEq

/-- Model of the `LockHinterError` enum of main.rs: a variant type
mismatch, a missing dictionary key carrying the key name, or an error
passed through from GLib. -/
inductive LockHinterError where
  | variantTypeMismatchError
  | valueMissingError (key : String)
  | glibError
deriving DecidableEq

/-- Model of `Variant::try_get::<String>`: succeeds exactly on
string-typed variants, otherwise fails with a type mismatch. -/
def tryGetString : Variant → Except LockHinterError String
  | .vString s => .ok s
  | _ => .error .variantTypeMismatchError

/-- Model of `Variant::try_get::<bool>`: succeeds exactly on
boolean-typed variants, otherwise fails with a type mismatch. -/
def tryGetBool : Variant → Except LockHinterError Bool
  | .vBool b => .ok b
  | _ => .error .variantTypeMismatchError

/-- Embedding of `get_session_state` (main.rs lines 89-119).  The
argument is the outcome of the `GetAll` D-Bus call: either an error
(transport failure or outer shape mismatch, both surfaced via `?` in the
source) or the property dictionary, modelled as an association list.
The function looks up `State` and then `LockedHint`, failing with
`valueMissingError` naming the absent key, or with a type mismatch when
a present value has the wrong variant type. -/
def get_session_state (call : Except LockHinterError (List (String × Variant))) :
    Except LockHinterError (String × Bool) :=
  match call with
  | .error e => .error e
  | .ok properties =>
    match properties.lookup "State" with
    | none => .error (.valueMissingError "State")
    | some v =>
      match tryGetString v with
      | .error e => .error e
      | .ok state =>
        match properties.lookup "LockedHint" with
        | none => .error (.valueMissingError "LockedHint")
        | some v2 =>
          match tryGetBool v2 with
          | .error e => .error e
          | .ok locked_hint => .ok (state, locked_hint)

/-- Model of `BusConnectionData` (main.rs lines 38-43): whether the
appearance callback delivered a connection, and the owner name. -/
structure BusConnectionData where
  connection : Bool
  owner : Option String
deriving DecidableEq

/-- Outcome of `child.wait()`: either the child's exit status, where
`exited (some c)` means it returned normally with code `c` and
`exited none` means it was terminated by a signal (mirroring
`ExitStatus::code`), or a driver-level wait error. -/
inductive WaitResult where
  | exited (code : Option Int)
  | waitError
deriving DecidableEq

/-- Oracle for one run: the outcome of every external interaction the
worker thread can perform, in the order the source performs them. -/
structure World where
  /-- Outcome of `handle_rx.recv()`: `none` models a channel receive
  error, `some` carries the `BusConnectionData` sent by a callback. -/
  recv : Option BusConnectionData
  /-- Outcome of `get_current_session_object_path`: the session object
  path, or `none` when that call fails. -/
  sessionPath : Option String
  /-- Outcome of the `GetAll` properties call fed to
  `get_session_state`. -/
  props : Except LockHinterError (List (String × Variant))
  /-- Whether `Command::spawn` succeeds. -/
  spawnOk : Bool
  /-- Whether `set_locked_hint` succeeds for a given boolean argument. -/
  setHintOk : Bool → Bool
  /-- Outcome of `child.wait()`. -/
  waitResult : WaitResult

/-- Externally visible calls issued by a run, in order: the Process
Driver's spawn invocation and each Hint Setter invocation. -/
inductive Event where
  | spawnChild (prog : String) (args : List String)
  | setHint (value : Bool)
deriving DecidableEq

/-- Terminal value of a run: process exit status, lines printed to
standard output, and the ordered external calls. -/
structure RunResult where
  exit : Nat
  stdout : List String
  events : List Event
deriving DecidableEq

/-- Parsed command-line options of main.rs: the `-c`, `-f`, `-h` flags
and the free (positional) arguments left by `getopts`. -/
structure Args where
  check : Bool
  force : Bool
  help : Bool
  free : List String
deriving DecidableEq

/-- Usage text printed by `print_usage` (main.rs lines 60-63); its exact
wording is irrelevant to every property, only that the help path and the
missing-argument path print the same text. -/
def usageText : String :=
  "Usage: lockhinter FILE [options] [--] program [args...]"

/-- Embedding of main.rs lines 277-314: the supervise sequence once the
program decides to run the locker.  The child is spawned first; only
then is `set_locked_hint(true)` called; then the worker waits, and
`set_locked_hint(false)` is called exactly when the child's exit code is
`Some(0)` (not when it was signalled and not on a non-zero code).  Every
error path returns 1; completing the sequence returns 0, including when
the child failed, since the clear is simply skipped. -/
def supervisePhase (w : World) (prog : String) (largs : List String) : RunResult :=
  if w.spawnOk then
    if w.setHintOk true then
      match w.waitResult with
      | .waitError =>
        ⟨1, [], [.spawnChild prog largs, .setHint true]⟩
      | .exited code =>
        if code = some 0 then
          if w.setHintOk false then
            ⟨0, [], [.spawnChild prog largs, .setHint true, .setHint false]⟩
          else
            ⟨1, [], [.spawnChild prog largs, .setHint true, .setHint false]⟩
        else
          ⟨0, [], [.spawnChild prog largs, .setHint true]⟩
    else
      ⟨1, [], [.spawnChild prog largs, .setHint true]⟩
  else
    ⟨1, [], [.spawnChild prog largs]⟩

/-- Embedding of the worker thread closure (main.rs lines 210-318),
after the locker specification has been computed.  Mirrors the source's
sequence: receive the bus event, check the connection and owner, resolve
the session object path, read the session state, then either report the
hint (check mode), refuse (hint set and no force), or enter the
supervise sequence of `supervisePhase`. -/
def workerRun (check force : Bool) (locker : Option (String × List String))
    (w : World) : RunResult :=
  match w.recv with
  | none => ⟨1, [], []⟩
  | some busData =>
    if busData.connection then
      match busData.owner with
      | none => ⟨1, [], []⟩
      | some _owner =>
        match w.sessionPath with
        | none => ⟨1, [], []⟩
        | some _objectPath =>
          match get_session_state w.props with
          | .error _ => ⟨1, [], []⟩
          | .ok (_sessionState, lockedHint) =>
            if check then
              ⟨if lockedHint then 1 else 0,
               [if lockedHint then "TRUE" else "FALSE"], []⟩
            else if lockedHint && !force then
              ⟨1, ["This session already has LockedHint set."], []⟩
            else
              match locker with
              | none => ⟨1, [], []⟩
              | some (prog, largs) => supervisePhase w prog largs
    else
      ⟨1, [], []⟩

/-- Embedding of the locker-specification computation (main.rs lines
166-179): in check mode no locker is parsed; otherwise the first free
argument is the program and the rest its arguments, and with no free
argument the program prints the usage text and returns success (exit 0),
exactly as the `--help` path does. -/
def lockerOf (a : Args) : Except RunResult (Option (String × List String)) :=
  if a.check then .ok none
  else
    match a.free with
    | [] => .error ⟨0, [usageText], []⟩
    | p :: rest => .ok (some (p, rest))

/-- Embedding of `main` (main.rs lines 139-331) as a function of the
parsed arguments and the oracle: the `--help` path, the locker
computation with its early return, then the worker thread; the process
exit status equals the worker's returned byte. -/
def run (a : Args) (w : World) : RunResult :=
  if a.help then ⟨0, [usageText], []⟩
  else
    match lockerOf a with
    | .error r => r
    | .ok locker => workerRun a.check a.force locker w

/-- Effect of one recorded event on the session's hint: a spawn does not
touch it, and a hint-setter call writes its value exactly when the call
succeeds (a failed D-Bus call is modelled as leaving the property
unchanged). -/
def applyEvent (w : World) (hint : Bool) : Event → Bool
  | .spawnChild _ _ => hint
  | .setHint v => if w.setHintOk v then v else hint

/-- Value of the session's `LockedHint` after a run, obtained by folding
the run's recorded events over the initial hint value. -/
def finalHint (w : World) (init : Bool) (r : RunResult) : Bool :=
  r.events.foldl (applyEvent w) init

/-- Whether an event is the Process Driver's spawn invocation. -/
def isSpawn : Event → Bool
  | .spawnChild _ _ => true
  | .setHint _ => false

/-- Whether an event is the set-to-true call to the Hint Setter. -/
def isSetTrue : Event → Bool
  | .setHint true => true
  | _ => false

/-- Position of the first event satisfying a predicate in a trace. -/
def idxOf (p : Event → Bool) : List Event → Option Nat
  | [] => none
  | e :: rest => if p e then some 0 else (idxOf p rest).map (· + 1)

/-- Position of the first spawn invocation in a trace, if any. -/
def idxOfSpawn (evs : List Event) : Option Nat := idxOf isSpawn evs

/-- Position of the first set-to-true Hint Setter call in a trace. -/
def idxOfSetTrue (evs : List Event) : Option Nat := idxOf isSetTrue evs

/-- Boolean rendering of the ordering property "the hint is asserted
before the child is spawned": whenever both calls occur in a trace, the
set-to-true call comes strictly first. -/
def assertPrecedesSpawn (evs : List Event) : Bool :=
  match idxOfSetTrue evs, idxOfSpawn evs with
  | some i, some j => Nat.blt i j
  | _, _ => true

/-- Relation between two outcomes of the state read that makes runs
indistinguishable: both fail, or both succeed with the same hint value
(the state string may differ, since `main` discards it). -/
def sameHint : Except LockHinterError (String × Bool) →
    Except LockHinterError (String × Bool) → Prop
  | .error _, .error _ => True
  | .ok (_, b1), .ok (_, b2) => b1 = b2
  | _, _ => False

/-- Property dictionary of a session whose hint is clear. -/
def propsUnlocked : List (String × Variant) :=
  [("State", .vString "active"), ("LockedHint", .vBool false)]

/-- Property dictionary of a session whose hint is set. -/
def propsLocked : List (String × Variant) :=
  [("State", .vString "active"), ("LockedHint", .vBool true)]

/-- Concrete oracle of a fully successful run: the bus appears, the
session resolves, the hint reads false, the child spawns, both hint
calls succeed, and the locker exits with code 0. -/
def wClean : World :=
  { recv := some ⟨true, some "org.freedesktop.login1"⟩,
    sessionPath := some "/org/freedesktop/login1/session/_31",
    props := .ok propsUnlocked,
    spawnOk := true,
    setHintOk := fun _ => true,
    waitResult := .exited (some 0) }

/-- Same oracle but the session's hint already reads true. -/
def wLocked : World := { wClean with props := .ok propsLocked }

/-- Same oracle but the locker exits with code 2. -/
def wExit2 : World := { wClean with waitResult := .exited (some 2) }

/-- Same oracle but the locker is terminated by a signal. -/
def wSignal : World := { wClean with waitResult := .exited none }

/-- Same oracle but spawning the child fails. -/
def wNoSpawn : World := { wClean with spawnOk := false }

/-- Parsed arguments of `lockhinter swaylock` (normal mode). -/
def aNormal : Args := { check := false, force := false, help := false, free := ["swaylock"] }

/-- Parsed arguments of `lockhinter -c` (check mode). -/
def aCheck : Args := { check := true, force := false, help := false, free := [] }

/-- Parsed arguments of `lockhinter` with no positional argument. -/
def aNoArg : Args := { check := false, force := false, help := false, free := [] }

deriving instance DecidableEq for Except

/-!
Helper lemmas about the embedding, shared by the claim theorems below.
-/

/-- A check-mode run (and a help run) records no spawn and no hint-setter
call: every terminal reached with `check = true` carries an empty event
trace. -/
theorem check_events_nil (a : Args) (w : World) (hc : a.check = true) :
    (run a w).events = [] := by
  unfold run lockerOf workerRun
  cases hh : a.help
  · simp only [hc, Bool.false_eq_true, if_false, if_true]
    rcases w.recv with _ | ⟨conn, ow⟩
    · rfl
    · cases conn
      · rfl
      · rcases ow with _ | o
        · rfl
        · rcases w.sessionPath with _ | p
          · rfl
          · rcases get_session_state w.props with e | ⟨s, b⟩
            · rfl
            · simp
  · simp

/-- With `check = true` the worker's behaviour does not depend on the
force flag or on the locker specification. -/
theorem workerRun_check_indep (f1 f2 : Bool) (l1 l2 : Option (String × List String))
    (w : World) : workerRun true f1 l1 w = workerRun true f2 l2 w := by
  unfold workerRun
  rcases w.recv with _ | ⟨conn, ow⟩
  · rfl
  · cases conn
    · rfl
    · rcases ow with _ | o
      · rfl
      · rcases w.sessionPath with _ | p
        · rfl
        · rcases get_session_state w.props with e | ⟨s, b⟩
          · rfl
          · simp

/-- Evaluation of a normal-mode run that passes the decide step: with
help and check off, a positional argument present, the bus event
delivered, the session resolved, the state read returning hint `h0`, and
either `h0 = false` or force set, the run is exactly the supervise
sequence. -/
theorem run_spawn_phase (a : Args) (w : World) (o p s prog : String)
    (rest : List String) (h0 : Bool)
    (hhelp : a.help = false) (hcheck : a.check = false)
    (hfree : a.free = prog :: rest)
    (hrecv : w.recv = some ⟨true, some o⟩)
    (hpath : w.sessionPath = some p)
    (hprops : get_session_state w.props = .ok (s, h0))
    (hgo : h0 = false ∨ a.force = true) :
    run a w = supervisePhase w prog rest := by
  unfold run lockerOf workerRun
  rw [hhelp, hcheck, hfree, hrecv, hpath, hprops]
  rcases hgo with hgo | hgo <;>
    simp [hgo]

/-- Evaluation of a check-mode run that reaches the state read: it
prints the hint token and exits with the hint as status, issuing no
external call. -/
theorem run_check_eval (a : Args) (w : World) (o p s : String) (h : Bool)
    (hhelp : a.help = false) (hcheck : a.check = true)
    (hrecv : w.recv = some ⟨true, some o⟩)
    (hpath : w.sessionPath = some p)
    (hprops : get_session_state w.props = .ok (s, h)) :
    run a w = ⟨if h then 1 else 0, [if h then "TRUE" else "FALSE"], []⟩ := by
  unfold run lockerOf workerRun
  rw [hhelp, hcheck, hrecv, hpath, hprops]
  simp

/-- The supervise sequence records one of exactly three traces: spawn
only (spawn failed), spawn then assert (assert failed, wait failed, or
unclean exit), or spawn, assert, clear (exit code 0, clear attempted). -/
theorem supervisePhase_events (w : World) (prog : String) (largs : List String) :
    (supervisePhase w prog largs).events = [.spawnChild prog largs] ∨
    (supervisePhase w prog largs).events = [.spawnChild prog largs, .setHint true] ∨
    (supervisePhase w prog largs).events =
      [.spawnChild prog largs, .setHint true, .setHint false] := by
  unfold supervisePhase
  cases hs : w.spawnOk
  · simp
  · cases ht : w.setHintOk true
    · simp
    · rcases w.waitResult with code | _
      · by_cases hc : code = some 0
        · cases hf : w.setHintOk false <;> simp [hc]
        · simp [hc]
      · simp

/-- Every run records either no external call at all, or one of the
three supervise traces, each of which begins with the spawn. -/
theorem run_events_cases (a : Args) (w : World) :
    (run a w).events = [] ∨
    ∃ prog largs,
      ((run a w).events = [.spawnChild prog largs] ∨
       (run a w).events = [.spawnChild prog largs, .setHint true] ∨
       (run a w).events = [.spawnChild prog largs, .setHint true, .setHint false]) := by
  unfold run lockerOf workerRun
  cases hh : a.help
  · cases hc : a.check
    · rcases hf : a.free with _ | ⟨prog, rest⟩
      · simp
      · simp only [Bool.false_eq_true, if_false]
        rcases w.recv with _ | ⟨conn, ow⟩
        · simp
        · cases conn
          · simp
          · rcases ow with _ | o
            · simp
            · rcases w.sessionPath with _ | p
              · simp
              · rcases hp : get_session_state w.props with e | ⟨s, b⟩
                · simp
                · by_cases hb : (b && !a.force) = true
                  · simp [hb]
                  · simp only [hb, Bool.false_eq_true, if_false, if_true]
                    right
                    exact ⟨prog, rest, supervisePhase_events w prog rest⟩
    · left
      have := check_events_nil a w hc
      unfold run lockerOf workerRun at this
      simpa [hh, hc] using this
  · simp

/-- Two worlds whose state reads either both fail or both succeed with
the same hint drive the worker to the same result, all other oracle
answers being equal: the state string is discarded by `main`. -/
theorem workerRun_hint_congr (check force : Bool)
    (locker : Option (String × List String)) (w1 w2 : World)
    (hrecv : w1.recv = w2.recv) (hpath : w1.sessionPath = w2.sessionPath)
    (hspawn : w1.spawnOk = w2.spawnOk) (hset : w1.setHintOk = w2.setHintOk)
    (hwait : w1.waitResult = w2.waitResult)
    (hstate : sameHint (get_session_state w1.props) (get_session_state w2.props)) :
    workerRun check force locker w1 = workerRun check force locker w2 := by
  unfold workerRun supervisePhase
  rw [hrecv, hpath, hspawn, hset, hwait]
  rcases h1 : get_session_state w1.props with e1 | ⟨s1, b1⟩ <;>
    rcases h2 : get_session_state w2.props with e2 | ⟨s2, b2⟩ <;>
      rw [h1, h2] at hstate
  all_goals first
    | rfl
    | exact False.elim hstate
    | (have hb : b1 = b2 := hstate
       subst hb
       rfl)

/-- Lifting of `workerRun_hint_congr` to whole runs differing only in the
properties-call outcome. -/
theorem run_hint_congr (a : Args) (w : World)
    (P Q : Except LockHinterError (List (String × Variant)))
    (h : sameHint (get_session_state P) (get_session_state Q)) :
    run a { w with props := P } = run a { w with props := Q } := by
  unfold run
  cases hh : a.help
  · simp only [Bool.false_eq_true, if_false]
    rcases lockerOf a with r | locker
    · rfl
    · exact workerRun_hint_congr a.check a.force locker _ _ rfl rfl rfl rfl rfl h
  · simp

/-- Association-list lookup skips a prefix that does not contain the
key. -/
theorem lookup_append_of_none {β : Type} (k : String)
    (pre rest : List (String × β)) (h : pre.lookup k = none) :
    (pre ++ rest).lookup k = rest.lookup k := by
  induction pre with
  | nil => rfl
  | cons hd tl ih =>
    cases h0 : (k == hd.1)
    · simp only [List.lookup, List.cons_append, h0] at h ⊢
      exact ih h
    · simp only [List.lookup, h0] at h
      exact Option.noConfusion h

/-- Association-list lookup of one key is unaffected by the value stored
under a different key in the middle of the list. -/
theorem lookup_middle_congr {β : Type} (k k0 : String) (v1 v2 : β)
    (pre post : List (String × β)) (hk : (k == k0) = false) :
    (pre ++ (k0, v1) :: post).lookup k = (pre ++ (k0, v2) :: post).lookup k := by
  induction pre with
  | nil => simp only [List.nil_append, List.lookup, hk]
  | cons hd tl ih =>
    cases h0 : (k == hd.1) <;>
      simp only [List.lookup, List.cons_append, h0]
    exact ih

/-- Association-list lookup finds the entry placed after a prefix free
of its key. -/
theorem lookup_middle_found {β : Type} (k : String) (v : β)
    (pre post : List (String × β)) (h : pre.lookup k = none) :
    (pre ++ (k, v) :: post).lookup k = some v := by
  rw [lookup_append_of_none k pre _ h]
  simp [List.lookup]

/-- C3: a check-mode invocation reaching the state read prints exactly
the literal token TRUE or FALSE, exits 1 when the hint is true and 0
when it is false, and check mode never invokes the spawn operation on
any input. -/
theorem C3_check_mode_report (a : Args) (w : World) (o p s : String) (h : Bool)
    (hhelp : a.help = false) (hcheck : a.check = true)
    (hrecv : w.recv = some ⟨true, some o⟩)
    (hpath : w.sessionPath = some p)
    (hprops : get_session_state w.props = .ok (s, h)) :
    (run a w).stdout = [if h then "TRUE" else "FALSE"] ∧
    (run a w).exit = (if h then 1 else 0) ∧
    ∀ (a2 : Args) (w2 : World), a2.check = true →
      ∀ prog largs, Event.spawnChild prog largs ∉ (run a2 w2).events := by
  rw [run_check_eval a w o p s h hhelp hcheck hrecv hpath hprops]
  refine ⟨rfl, rfl, ?_⟩
  intro a2 w2 hc2 prog largs
  rw [check_events_nil a2 w2 hc2]
  simp

theorem C3_witness :
    (run aCheck wLocked).stdout = [if true then "TRUE" else "FALSE"] ∧
    (run aCheck wLocked).exit = (if true then 1 else 0) ∧
    ∀ (a2 : Args) (w2 : World), a2.check = true →
      ∀ prog largs, Event.spawnChild prog largs ∉ (run a2 w2).events :=
  C3_check_mode_report aCheck wLocked "org.freedesktop.login1"
    "/org/freedesktop/login1/session/_31" "active" true rfl rfl rfl rfl rfl

/-- C4: a normal-mode run reading hint true with force unset prints the
refusal message, exits 1, issues no spawn and no hint-setter call, and
leaves the hint unchanged (so repeated such invocations never mutate
it). -/
theorem C4_refusal_idempotent (a : Args) (w : World) (o p s prog : String)
    (rest : List String)
    (hhelp : a.help = false) (hcheck : a.check = false) (hforce : a.force = false)
    (hfree : a.free = prog :: rest)
    (hrecv : w.recv = some ⟨true, some o⟩)
    (hpath : w.sessionPath = some p)
    (hprops : get_session_state w.props = .ok (s, true)) :
    run a w = ⟨1, ["This session already has LockedHint set."], []⟩ ∧
    finalHint w true (run a w) = true := by
  have h1 : run a w = ⟨1, ["This session already has LockedHint set."], []⟩ := by
    unfold run lockerOf workerRun
    rw [hhelp, hcheck, hforce, hfree, hrecv, hpath, hprops]
    simp
  exact ⟨h1, by rw [h1]; rfl⟩

theorem C4_witness :
    run aNormal wLocked = ⟨1, ["This session already has LockedHint set."], []⟩ ∧
    finalHint wLocked true (run aNormal wLocked) = true :=
  C4_refusal_idempotent aNormal wLocked "org.freedesktop.login1"
    "/org/freedesktop/login1/session/_31" "active" "swaylock" [] rfl rfl rfl rfl rfl rfl rfl

/-- C6 (amended): a normal-mode invocation with no positional locker
argument exits with status 0 (not 1), printing the usage text. -/
theorem C6_missing_arg_exit_zero (a : Args) (w : World)
    (hhelp : a.help = false) (hcheck : a.check = false) (hfree : a.free = []) :
    (run a w).exit = 0 ∧ (run a w).stdout = [usageText] := by
  unfold run lockerOf
  rw [hhelp, hcheck, hfree]
  exact ⟨rfl, rfl⟩

/-- C6 counterexample: with no positional argument in normal mode the
program does not exit with status 1 as claimed; it exits 0. -/
theorem C6_counterexample : ¬ (run aNoArg wClean).exit = 1 := by decide

theorem C6_witness : (run aNoArg wClean).exit = 0 ∧ (run aNoArg wClean).stdout = [usageText] :=
  C6_missing_arg_exit_zero aNoArg wClean rfl rfl rfl

/-- C7: a normal-mode invocation with no positional argument behaves
identically to passing the help flag: usage text on standard output,
exit status 0, no external call, hint untouched. -/
theorem C7_missing_arg_like_help (a : Args) (w : World)
    (hhelp : a.help = false) (hcheck : a.check = false) (hfree : a.free = []) :
    run a w = ⟨0, [usageText], []⟩ ∧
    run { a with help := true } w = run a w ∧
    ∀ h, finalHint w h (run a w) = h := by
  have h1 : run a w = ⟨0, [usageText], []⟩ := by
    unfold run lockerOf
    rw [hhelp, hcheck, hfree]
    rfl
  refine ⟨h1, ?_, ?_⟩
  · rw [h1]
    rfl
  · intro h
    rw [h1]
    rfl

theorem C7_witness :
    run aNoArg wClean = ⟨0, [usageText], []⟩ ∧
    run { aNoArg with help := true } wClean = run aNoArg wClean ∧
    ∀ h, finalHint wClean h (run aNoArg wClean) = h :=
  C7_missing_arg_like_help aNoArg wClean rfl rfl rfl

/-- C8 (amended): a missing State key makes the state read fail with the
named error for State; a missing LockedHint key makes it fail with the
named error for LockedHint provided the State key is present with a
string value (the State check runs first, so with both keys absent the
State error is reported). -/
theorem C8_missing_key_named_errors (props : List (String × Variant)) :
    (props.lookup "State" = none →
      get_session_state (.ok props) = .error (.valueMissingError "State")) ∧
    (∀ s, props.lookup "State" = some (.vString s) →
      props.lookup "LockedHint" = none →
      get_session_state (.ok props) = .error (.valueMissingError "LockedHint")) := by
  constructor
  · intro h
    simp [get_session_state, h]
  · intro s hs hl
    simp [get_session_state, hs, hl, tryGetString]

/-- C8 counterexample: with both keys absent the read fails with the
State error, not the LockedHint error, refuting the unconditional second
half of the claim. -/
theorem C8_counterexample :
    List.lookup "LockedHint" ([] : List (String × Variant)) = none ∧
    get_session_state (.ok ([] : List (String × Variant))) =
      .error (.valueMissingError "State") ∧
    ¬ get_session_state (.ok ([] : List (String × Variant))) =
      .error (.valueMissingError "LockedHint") := by decide

theorem C8_witness :
    get_session_state (.ok [("LockedHint", Variant.vBool true)]) =
      .error (.valueMissingError "State") ∧
    get_session_state (.ok [("State", Variant.vString "active")]) =
      .error (.valueMissingError "LockedHint") :=
  ⟨(C8_missing_key_named_errors [("LockedHint", Variant.vBool true)]).1 (by decide),
   (C8_missing_key_named_errors [("State", Variant.vString "active")]).2 "active"
     (by decide) (by decide)⟩

/-- C10: in check mode the Hint Setter is never invoked, the hint is
left unchanged by the run, and neither the force flag nor the positional
arguments have any effect on the run's outcome. -/
theorem C10_check_mode_frame (a : Args) (w : World) (hc : a.check = true) :
    (∀ v, Event.setHint v ∉ (run a w).events) ∧
    (∀ h, finalHint w h (run a w) = h) ∧
    (∀ (f : Bool) (fr : List String), run { a with force := f, free := fr } w = run a w) := by
  have he := check_events_nil a w hc
  refine ⟨?_, ?_, ?_⟩
  · intro v
    rw [he]
    simp
  · intro h
    unfold finalHint
    rw [he]
    rfl
  · intro f fr
    obtain ⟨ac, af, ah, afr⟩ := a
    have hac : ac = true := hc
    subst hac
    cases ah
    · exact workerRun_check_indep f af none none w
    · rfl

theorem C10_witness :
    (∀ v, Event.setHint v ∉ (run aCheck wClean).events) ∧
    (∀ h, finalHint wClean h (run aCheck wClean) = h) ∧
    (∀ (f : Bool) (fr : List String),
      run { aCheck with force := f, free := fr } wClean = run aCheck wClean) :=
  C10_check_mode_frame aCheck wClean rfl

/-- C5: in a supervised run whose wait succeeds and whose clear call,
when attempted, succeeds, the tool exits 0 regardless of the locker's
exit code or signal termination; a non-clean locker outcome leaves the
hint asserted. -/
theorem C5_supervisory_exit_zero (a : Args) (w : World) (o p s prog : String)
    (rest : List String) (h0 : Bool) (c : Option Int)
    (hhelp : a.help = false) (hcheck : a.check = false)
    (hfree : a.free = prog :: rest)
    (hrecv : w.recv = some ⟨true, some o⟩)
    (hpath : w.sessionPath = some p)
    (hprops : get_session_state w.props = .ok (s, h0))
    (hgo : h0 = false ∨ a.force = true)
    (hspawn : w.spawnOk = true) (hset : w.setHintOk true = true)
    (hwait : w.waitResult = .exited c)
    (hclear : c = some 0 → w.setHintOk false = true) :
    (run a w).exit = 0 ∧
    (c ≠ some 0 → finalHint w h0 (run a w) = true) := by
  rw [run_spawn_phase a w o p s prog rest h0 hhelp hcheck hfree hrecv hpath hprops hgo]
  unfold supervisePhase
  rw [hspawn, hset, hwait]
  by_cases hc : c = some 0
  · rw [hclear hc]
    simp [hc, finalHint, applyEvent]
  · simp [hc, finalHint, applyEvent, hset]

theorem C5_witness :
    (run aNormal wExit2).exit = 0 ∧
    ((some 2 : Option Int) ≠ some 0 → finalHint wExit2 false (run aNormal wExit2) = true) :=
  C5_supervisory_exit_zero aNormal wExit2 "org.freedesktop.login1"
    "/org/freedesktop/login1/session/_31" "active" "swaylock" [] false (some 2)
    rfl rfl rfl rfl rfl rfl (Or.inl rfl) rfl rfl rfl (by decide)

/-- C9: the value of the session's State string never influences the
run: two runs identical except for that string produce the same exit
status, standard output, and external-call sequence. -/
theorem C9_state_string_noninterference (a : Args) (w : World)
    (pre post : List (String × Variant)) (s1 s2 : String)
    (hpre : pre.lookup "State" = none) :
    run a { w with props := .ok (pre ++ ("State", .vString s1) :: post) } =
    run a { w with props := .ok (pre ++ ("State", .vString s2) :: post) } := by
  apply run_hint_congr
  have e1 := lookup_middle_found "State" (Variant.vString s1) pre post hpre
  have e2 := lookup_middle_found "State" (Variant.vString s2) pre post hpre
  have e3 := lookup_middle_congr "LockedHint" "State" (Variant.vString s1)
    (Variant.vString s2) pre post (by decide)
  simp only [get_session_state, e1, e2, e3, tryGetString]
  rcases hl : (pre ++ ("State", Variant.vString s2) :: post).lookup "LockedHint" with _ | v
  · exact trivial
  · cases v <;> simp [sameHint, tryGetBool]

theorem C9_witness :
    run aCheck { wClean with props :=
      (Except.ok [("State", Variant.vString "active"), ("LockedHint", Variant.vBool false)]) } =
    run aCheck { wClean with props :=
      (Except.ok [("State", Variant.vString "closing"), ("LockedHint", Variant.vBool false)]) } :=
  C9_state_string_noninterference aCheck wClean [] [("LockedHint", Variant.vBool false)]
    "active" "closing" (by decide)

/-- C2 (amended): the hint is asserted immediately after the child is
spawned, not before: in every run that issues the set-to-true call, the
spawn is the first external call and the set-to-true call the second, so
the claimed assert-before-spawn order never holds in an asserting run. -/
theorem C2_assert_follows_spawn (a : Args) (w : World)
    (h : Event.setHint true ∈ (run a w).events) :
    idxOfSpawn (run a w).events = some 0 ∧
    idxOfSetTrue (run a w).events = some 1 ∧
    assertPrecedesSpawn (run a w).events = false := by
  rcases run_events_cases a w with he | ⟨prog, largs, he | he | he⟩ <;> rw [he] at h ⊢
  · simp at h
  · simp at h
  · exact ⟨rfl, rfl, rfl⟩
  · exact ⟨rfl, rfl, rfl⟩

/-- C2 counterexample: the concrete successful run records the spawn
before the set-to-true call, so the hint is not asserted before the
locker child is spawned. -/
theorem C2_counterexample :
    Event.setHint true ∈ (run aNormal wClean).events ∧
    Event.spawnChild "swaylock" [] ∈ (run aNormal wClean).events ∧
    assertPrecedesSpawn (run aNormal wClean).events = false := by decide

theorem C2_witness :
    idxOfSpawn (run aNormal wClean).events = some 0 ∧
    idxOfSetTrue (run aNormal wClean).events = some 1 ∧
    assertPrecedesSpawn (run aNormal wClean).events = false :=
  C2_assert_follows_spawn aNormal wClean (by decide)

/-- C1 (amended): in a supervised run the clear call is issued iff the
child's outcome is exit code 0 and not signalled; a non-zero exit code,
a signal, a wait error or a failing clear call leaves the hint asserted;
a spawn error or a failing assert call leaves the hint at its initial
value, which such a run never asserted. -/
theorem C1_clear_iff_clean_exit (a : Args) (w : World) (o p s prog : String)
    (rest : List String) (h0 : Bool)
    (hhelp : a.help = false) (hcheck : a.check = false)
    (hfree : a.free = prog :: rest)
    (hrecv : w.recv = some ⟨true, some o⟩)
    (hpath : w.sessionPath = some p)
    (hprops : get_session_state w.props = .ok (s, h0))
    (hgo : h0 = false ∨ a.force = true) :
    ((Event.setHint false ∈ (run a w).events) ↔
      (w.spawnOk = true ∧ w.setHintOk true = true ∧
        w.waitResult = .exited (some 0))) ∧
    (∀ c, w.spawnOk = true → w.setHintOk true = true →
      w.waitResult = .exited c → c ≠ some 0 →
      finalHint w h0 (run a w) = true) ∧
    (w.spawnOk = true → w.setHintOk true = true → w.waitResult = .waitError →
      finalHint w h0 (run a w) = true) ∧
    (w.spawnOk = true → w.setHintOk true = true →
      w.waitResult = .exited (some 0) → w.setHintOk false = false →
      finalHint w h0 (run a w) = true) ∧
    (w.spawnOk = false → finalHint w h0 (run a w) = h0) ∧
    (w.spawnOk = true → w.setHintOk true = false →
      finalHint w h0 (run a w) = h0) := by
  rw [run_spawn_phase a w o p s prog rest h0 hhelp hcheck hfree hrecv hpath hprops hgo]
  unfold supervisePhase
  refine ⟨?_, ?_, ?_, ?_, ?_, ?_⟩
  · cases hsp : w.spawnOk
    · simp
    · cases hst : w.setHintOk true
      · simp
      · rcases hw : w.waitResult with c | _
        · by_cases hc : c = some 0
          · subst hc
            cases hf : w.setHintOk false <;> simp
          · simp [hc]
        · simp
  · intro c hsp hst hw hc
    rw [hsp, hst, hw]
    simp [hc, finalHint, applyEvent, hst]
  · intro hsp hst hw
    rw [hsp, hst, hw]
    simp [finalHint, applyEvent, hst]
  · intro hsp hst hw hf
    rw [hsp, hst, hw]
    simp [finalHint, applyEvent, hst, hf]
  · intro hsp
    rw [hsp]
    simp [finalHint, applyEvent]
  · intro hsp hst
    rw [hsp, hst]
    simp [finalHint, applyEvent, hst]

/-- C1 counterexample: a normal-mode run with initial hint false whose
spawn fails ends with the hint still false, refuting the part of the
claim that says a spawn error leaves the hint asserted. -/
theorem C1_counterexample :
    (run aNormal wNoSpawn).events = [Event.spawnChild "swaylock" []] ∧
    finalHint wNoSpawn false (run aNormal wNoSpawn) = false := by decide

theorem C1_witness :
    ((Event.setHint false ∈ (run aNormal wExit2).events) ↔
      (wExit2.spawnOk = true ∧ wExit2.setHintOk true = true ∧
        wExit2.waitResult = .exited (some 0))) ∧
    (∀ c, wExit2.spawnOk = true → wExit2.setHintOk true = true →
      wExit2.waitResult = .exited c → c ≠ some 0 →
      finalHint wExit2 false (run aNormal wExit2) = true) ∧
    (wExit2.spawnOk = true → wExit2.setHintOk true = true →
      wExit2.waitResult = .waitError →
      finalHint wExit2 false (run aNormal wExit2) = true) ∧
    (wExit2.spawnOk = true → wExit2.setHintOk true = true →
      wExit2.waitResult = .exited (some 0) → wExit2.setHintOk false = false →
      finalHint wExit2 false (run aNormal wExit2) = true) ∧
    (wExit2.spawnOk = false → finalHint wExit2 false (run aNormal wExit2) = false) ∧
    (wExit2.spawnOk = true → wExit2.setHintOk true = false →
      finalHint wExit2 false (run aNormal wExit2) = false) :=
  C1_clear_iff_clean_exit aNormal wExit2 "org.freedesktop.login1"
    "/org/freedesktop/login1/session/_31" "active" "swaylock" [] false
    rfl rfl rfl rfl rfl rfl (Or.inl rfl)

end Lockhinter
